import Mathlib

/-!
Verification development for the bulk operation engine of the
research-project management repository.

The definitions below are a shallow embedding of the Python source:

* `src/scripts/bulk_processor.py` (`BulkProcessor`): the bulk batch loops
  (`bulk_create_student_folders`, `bulk_create_student_issues`), progress
  tracking (`_initialize_progress`, `_update_progress`, `_finalize_progress`,
  `cancel_running_operation`, `_generate_summary`), retry
  (`retry_failed_operations`), persistence (`_save_bulk_results`,
  `get_bulk_operation_history`), and prerequisite validation
  (`validate_bulk_operation_prerequisites`).
* `src/scripts/github_client_old.py` (`GitHubClient`): `wait_for_rate_limit`,
  `make_request`, `create_repository`, `get_repository`.
* `src/scripts/utils.py`: `load_project_data`, `clean_folder_name`,
  `save_progress_data`.

Conventions used throughout the embedding:

* A Python function that may raise is modelled as returning
  `Except String α`; `Except.error` is a raised exception.
* Wall-clock instants (`datetime.now()`) are supplied as explicit `Nat`
  parameters; `time.sleep` calls are modelled by counting them (or by
  returning the list of requested sleep durations).
* The JSON files under `data/bulk_operations/` are modelled as a `Store`:
  a list of (file name, modification time, saved document) entries, where
  writing to an existing name overwrites that entry.
* Remote managers (`RepositoryManager.create_student_folder`,
  `StudentManager.create_student_issues`, ...) are external to the engine
  and are passed in as an operation function `Student → Except String
  OperationOutcome`, exactly the shape the Python loops consume.
-/

namespace ProjMgmt

/-- One student record, as produced by `load_project_data` and consumed by
the per-entity operations in `bulk_processor.py`. -/
structure Student where
  index_number : String
  research_area : String
  email : String
  github_username : String
  deriving Repr, DecidableEq

/-- The `status` tag of a per-entity result dictionary.  The Python code
uses the strings `success`, `partial_success`, `failed`, `error`; the
constructor `part_success` models the string `partial_success`. -/
inductive Status where
  | success
  | part_success
  | failed
  | error
  deriving Repr, DecidableEq

/-- Result of applying one operation to one entity (the dictionaries the
managers return, and the `error_result` dictionaries the batch loops build
in their `except` branches). -/
structure OperationOutcome where
  status : Status
  error : Option String := none
  student : Option Student := none
  deriving Repr, DecidableEq

/-- The run status strings of `BulkProcessor.progress_data['status']`. -/
inductive RunStatus where
  | idle
  | running
  | completed
  | error
  | cancelled
  deriving Repr, DecidableEq

/-- `BulkProcessor.progress_data`, the single mutable progress dictionary.
The ISO timestamp strings are modelled as `Option Nat` instants. -/
structure ProgressData where
  total_items : Nat
  processed_items : Nat
  successful_items : Nat
  failed_items : Nat
  start_time : Option Nat
  end_time : Option Nat
  status : RunStatus
  operation : String
  progress_percentage : ℚ
  deriving Repr, DecidableEq

/-- The initial `progress_data` dictionary set in `BulkProcessor.__init__`
(status `idle`, all counters zero). -/
def initial_progress_data : ProgressData :=
  { total_items := 0, processed_items := 0, successful_items := 0,
    failed_items := 0, start_time := none, end_time := none,
    status := RunStatus.idle, operation := "", progress_percentage := 0 }

/-- `BulkProcessor._initialize_progress`: reset the progress dictionary to
a fresh running state. -/
def init_progress (total_items : Nat) (operation : String) (now : Nat) : ProgressData :=
  { total_items := total_items, processed_items := 0, successful_items := 0,
    failed_items := 0, start_time := some now, end_time := none,
    status := RunStatus.running, operation := operation,
    progress_percentage := 0 }

/-- The counter/percentage part of `BulkProcessor._update_progress`:
increment `processed_items` and one of `successful_items`/`failed_items`,
then recompute `progress_percentage` when `total_items > 0`. -/
def progress_after (p : ProgressData) (increment : Nat) (success : Bool) : ProgressData :=
  let p1 := { p with processed_items := p.processed_items + increment }
  let p2 :=
    if success then { p1 with successful_items := p1.successful_items + increment }
    else { p1 with failed_items := p1.failed_items + increment }
  if 0 < p2.total_items then
    { p2 with progress_percentage :=
        ((p2.processed_items : ℚ) / (p2.total_items : ℚ)) * 100 }
  else p2

/-- `BulkProcessor._update_progress`.  Returns the new progress dictionary,
the snapshot copy passed to the callback (`progress_data.copy()`), and the
message of a callback exception, which the Python code catches and logs
(`logger.error`) instead of letting it propagate.  The function always
returns a value: no exception escapes it. -/
def update_progress (p : ProgressData) (increment : Nat)
    (callback : Option (ProgressData → Except String Unit)) (success : Bool) :
    ProgressData × Option ProgressData × Option String :=
  let p3 := progress_after p increment success
  match callback with
  | none => (p3, none, none)
  | some f =>
    match f p3 with
    | Except.ok _ => (p3, some p3, none)
    | Except.error e => (p3, some p3, some e)

/-- `BulkProcessor._finalize_progress`: stamp the terminal status and the
end time (the duration computation only reformats these two instants). -/
def finalize_progress (p : ProgressData) (status : RunStatus) (now : Nat) : ProgressData :=
  { p with status := status, end_time := some now }

/-- `BulkProcessor.cancel_running_operation`: if the current status is
`running`, flip it to `cancelled`, stamp the end time and return `true`;
otherwise leave the dictionary alone and return `false`. -/
def cancel_running_operation (p : ProgressData) (now : Nat) : ProgressData × Bool :=
  if p.status = RunStatus.running then
    ({ p with status := RunStatus.cancelled, end_time := some now }, true)
  else (p, false)

/-- The `results` dictionary a bulk operation accumulates: the
`successful` / `failed` / `partial_success` lists plus the operation tag
and ISO timestamp (`part_success` models the `partial_success` key). -/
structure Results where
  successful : List OperationOutcome
  failed : List OperationOutcome
  part_success : List OperationOutcome
  operation : String
  timestamp : String
  deriving Repr, DecidableEq

/-- The summary dictionary built by `BulkProcessor._generate_summary`
(the optional `duration_seconds` entry, copied from the progress
dictionary, is omitted: no claim mentions it). -/
structure Summary where
  total_processed : Nat
  successful_count : Nat
  failed_count : Nat
  part_success_count : Nat
  success_rate : ℚ
  operation : String
  timestamp : String
  deriving Repr, DecidableEq

/-- `BulkProcessor._generate_summary`. -/
def generate_summary (results : Results) : Summary :=
  let total_processed :=
    results.successful.length + results.failed.length + results.part_success.length
  { total_processed := total_processed,
    successful_count := results.successful.length,
    failed_count := results.failed.length,
    part_success_count := results.part_success.length,
    success_rate :=
      if 0 < total_processed then
        ((results.successful.length : ℚ) / (total_processed : ℚ)) * 100
      else 0,
    operation := results.operation,
    timestamp := results.timestamp }

/-- The part of a saved results document that
`get_bulk_operation_history` reads back: the operation tag, the ISO
timestamp and the summary. -/
structure SavedRun where
  operation : String
  timestamp : String
  summary : Summary
  deriving Repr, DecidableEq

/-- One JSON file under `data/bulk_operations/`: name, filesystem
modification time, content. -/
structure StoreEntry where
  name : String
  mtime : Nat
  data : SavedRun
  deriving Repr, DecidableEq

/-- The `data/bulk_operations/` directory. -/
structure Store where
  entries : List StoreEntry
  deriving Repr, DecidableEq

/-- `utils.save_progress_data`: write one JSON file, overwriting any
existing file of the same name; `mtime` is the write instant. -/
def save_progress_data (store : Store) (name : String) (mtime : Nat)
    (data : SavedRun) : Store :=
  { entries := store.entries.filter (fun e => decide (e.name ≠ name)) ++
      [{ name := name, mtime := mtime, data := data }] }

/-- `BulkProcessor._save_bulk_results`: write the results under
`{operation_name}_{timestamp}.json` and then under
`latest_{operation_name}.json`.  The two writes happen in that order, so
the `latest_` file carries the later modification time (`t` then
`t + 1`). -/
def save_bulk_results (store : Store) (operation_name ts : String) (t : Nat)
    (data : SavedRun) : Store :=
  let s1 := save_progress_data store (operation_name ++ "_" ++ ts ++ ".json") t data
  save_progress_data s1 ("latest_" ++ operation_name ++ ".json") (t + 1) data

/-- The glob pattern of `get_bulk_operation_history`:
`*{operation_type}*.json` when an operation type is given, `*.json`
otherwise. -/
def matches_pattern (operation_type : Option String) (name : String) : Bool :=
  (decide ((".json").data <:+ name.data)) &&
    (match operation_type with
     | none => true
     | some op => decide (op.data <:+: name.data))

/-- Insert an entry into a list sorted by decreasing `mtime`
(modelling Python's `files.sort(key=os.path.getmtime, reverse=True)`). -/
def insert_desc (e : StoreEntry) : List StoreEntry → List StoreEntry
  | [] => [e]
  | x :: xs => if x.mtime ≤ e.mtime then e :: x :: xs else x :: insert_desc e xs

/-- Sort store entries by decreasing modification time. -/
def sort_desc : List StoreEntry → List StoreEntry
  | [] => []
  | x :: xs => insert_desc x (sort_desc xs)

/-- One record of the list returned by `get_bulk_operation_history`. -/
structure HistoryRecord where
  file_name : String
  operation : String
  timestamp : String
  summary : Summary
  total_processed : Nat
  success_rate : ℚ
  deriving Repr, DecidableEq

/-- `BulkProcessor.get_bulk_operation_history`: list the files matching
the pattern, most recent first, truncated to `limit`, each mapped to a
record carrying the saved summary. -/
def get_bulk_operation_history (store : Store) (operation_type : Option String)
    (limit : Nat) : List HistoryRecord :=
  let files := store.entries.filter (fun e => matches_pattern operation_type e.name)
  let sorted := sort_desc files
  (sorted.take limit).map (fun e =>
    { file_name := e.name,
      operation := e.data.operation,
      timestamp := e.data.timestamp,
      summary := e.data.summary,
      total_processed := e.data.summary.total_processed,
      success_rate := e.data.summary.success_rate })

/-- An HTTP response as seen by `GitHubClient` (`github_client_old.py`):
status code and the optional `X-RateLimit-Remaining` header. -/
structure HttpResponse where
  status_code : Nat
  x_ratelimit_remaining : Option Int
  deriving Repr, DecidableEq

/-- What `self.session.request(...)` does on one call: either return a
response or raise a `requests.exceptions.RequestException` carrying a
message. -/
inductive RequestResult where
  | response (r : HttpResponse)
  | transport_error (msg : String)
  deriving Repr, DecidableEq

/-- `GitHubClient.wait_for_rate_limit`.  Inputs: the current
`rate_limit_remaining` counter, `wait_time = (rate_limit_reset -
datetime.now()).total_seconds()` and the value `requeried` that
`check_rate_limit()` would store into `rate_limit_remaining` if invoked.
Returns the list of `time.sleep` durations performed and the
`rate_limit_remaining` counter afterwards. -/
def wait_for_rate_limit (remaining wait_time requeried : Int) : List Int × Int :=
  if remaining < 100 then
    if 0 < wait_time then ([min wait_time 3600], requeried)
    else ([], remaining)
  else ([], remaining)

/-- `GitHubClient.make_request`: run `wait_for_rate_limit`, perform the
HTTP call, and on success update `rate_limit_remaining` from the
`X-RateLimit-Remaining` header when present.  A
`requests.exceptions.RequestException` is logged and re-raised
(`except ...: logger.error(...); raise`), modelled by `Except.error`.
Returns the sleeps performed and either the new counter with the
response, or the propagated exception. -/
def make_request (remaining wait_time requeried : Int) (outcome : RequestResult) :
    List Int × Except String (Int × HttpResponse) :=
  let w := wait_for_rate_limit remaining wait_time requeried
  match outcome with
  | RequestResult.response r =>
    let rem' :=
      match r.x_ratelimit_remaining with
      | some n => n
      | none => w.2
    (w.1, Except.ok (rem', r))
  | RequestResult.transport_error e => (w.1, Except.error e)

/-- `GitHubClient.create_repository`: wraps `make_request` in
`try/except`; returns `true` on a 201 response and `false` on any other
status code or on any exception. -/
def create_repository (remaining wait_time requeried : Int)
    (outcome : RequestResult) : List Int × Bool :=
  match make_request remaining wait_time requeried outcome with
  | (sleeps, Except.ok (_, r)) => (sleeps, decide (r.status_code = 201))
  | (sleeps, Except.error _) => (sleeps, false)

/-- `GitHubClient.get_repository`: wraps `make_request` in `try/except`;
returns the response body on a 200 response and `none` on any other
status code or on any exception. -/
def get_repository (remaining wait_time requeried : Int)
    (outcome : RequestResult) : List Int × Option HttpResponse :=
  match make_request remaining wait_time requeried outcome with
  | (sleeps, Except.ok (_, r)) =>
    (sleeps, if r.status_code = 200 then some r else none)
  | (sleeps, Except.error _) => (sleeps, none)

/-- The body of the per-student `try/except` in the bulk loops: invoke
the operation; a raised exception becomes an `error_result` dictionary
with `status = 'error'`, the exception message and the student. -/
def process_entity (op : Student → Except String OperationOutcome)
    (s : Student) : OperationOutcome :=
  match op s with
  | Except.ok r => r
  | Except.error e =>
    { status := Status.error, error := some e, student := some s }

/-- The inner `create_folder_batch` closure of
`bulk_create_student_folders`: process one batch in order, appending each
outcome and updating progress after every entity (success flag
`folder_result.get('status') == 'success'`, `False` for an exception). -/
def create_folder_batch (op : Student → Except String OperationOutcome)
    (cb : Option (ProgressData → Except String Unit)) :
    List Student → ProgressData → List OperationOutcome × ProgressData
  | [], p => ([], p)
  | s :: rest, p =>
    let outcome := process_entity op s
    let p' := (update_progress p 1 cb (decide (outcome.status = Status.success))).1
    let r := create_folder_batch op cb rest p'
    (outcome :: r.1, r.2)

/-- The batch loop of `bulk_create_student_folders` (lines 91-106):
`for i in range(0, len(students), batch_size)` with
`time.sleep(delay)` after a batch exactly when `i + batch_size <
len(students)`.  The first component collects `all_results`, the second
counts the sleeps, the third is the final progress state.  The `fuel`
argument is the structural bound `students.length` (each iteration
consumes at least one student when `0 < batch_size`, mirroring Python's
`range` semantics, which rejects step 0). -/
def folders_batch_loop (op : Student → Except String OperationOutcome)
    (cb : Option (ProgressData → Except String Unit)) (batch_size : Nat) :
    Nat → List Student → ProgressData → List OperationOutcome × Nat × ProgressData
  | 0, _, p => ([], 0, p)
  | _ + 1, [], p => ([], 0, p)
  | fuel + 1, s :: rest', p =>
    let l := s :: rest'
    let b := create_folder_batch op cb (l.take batch_size) p
    let rest := l.drop batch_size
    let r := folders_batch_loop op cb batch_size fuel rest b.2
    (b.1 ++ r.1, (if rest.isEmpty then 0 else 1) + r.2.1, r.2.2)

/-- The result-routing loop of `bulk_create_student_folders` (lines
109-114): each result goes to `successful` when its status is `success`
and to `failed` otherwise, incrementing `total_processed` either way. -/
def route_results : List OperationOutcome →
    List OperationOutcome × List OperationOutcome × Nat
  | [] => ([], [], 0)
  | r :: rest =>
    let acc := route_results rest
    if r.status = Status.success then (r :: acc.1, acc.2.1, acc.2.2 + 1)
    else (acc.1, r :: acc.2.1, acc.2.2 + 1)

/-- Everything `bulk_create_student_folders` produces: the raw outcome
list, the routed results, the summary, the number of inter-batch sleeps,
the final progress state and the store after `_save_bulk_results`. -/
structure FoldersRunReturn where
  all_results : List OperationOutcome
  successful : List OperationOutcome
  failed : List OperationOutcome
  total_processed : Nat
  summary : Summary
  sleeps : Nat
  progress : ProgressData
  store : Store
  deriving Repr

/-- `BulkProcessor.bulk_create_student_folders` on an already-loaded
student list: initialize progress, run the batch loop, route the
results, generate the summary, finalize progress as `completed` and save
the results.  `ts` is the run's ISO timestamp string, `now` the clock
instant, `t` the write time used by `_save_bulk_results`. -/
def bulk_create_student_folders (op : Student → Except String OperationOutcome)
    (students : List Student) (batch_size : Nat)
    (cb : Option (ProgressData → Except String Unit))
    (store : Store) (ts : String) (now t : Nat) : FoldersRunReturn :=
  let p0 := init_progress students.length "Creating student folders" now
  let loop := folders_batch_loop op cb batch_size students.length students p0
  let routed := route_results loop.1
  let results : Results :=
    { successful := routed.1, failed := routed.2.1, part_success := [],
      operation := "bulk_create_student_folders", timestamp := ts }
  let summary := generate_summary results
  let p2 := finalize_progress loop.2.2 RunStatus.completed now
  let store' := save_bulk_results store "bulk_create_student_folders" ts t
    { operation := "bulk_create_student_folders", timestamp := ts, summary := summary }
  { all_results := loop.1, successful := routed.1, failed := routed.2.1,
    total_processed := routed.2.2, summary := summary, sleeps := loop.2.1,
    progress := p2, store := store' }

/-- Loop state of `bulk_create_student_issues`: the accumulating results
lists and counter, the shared progress dictionary, and the value returned
by the one `cancel_running_operation` call injected into the run
(`none` until that call happens). -/
structure IssuesState where
  successful : List OperationOutcome
  failed : List OperationOutcome
  total_processed : Nat
  progress : ProgressData
  cancel_result : Option Bool
  deriving Repr

/-- One iteration of the per-student loop of `bulk_create_student_issues`
(lines 159-182), instrumented with a concurrent cancellation request: a
successful outcome goes to `successful`, anything else (including a
raised exception) to `failed`; `total_processed` and the progress
dictionary are updated after every entity.  Immediately after the
`cancel_after`-th entity's outcome has been recorded,
`cancel_running_operation` is invoked once (modelling the external
cancel call arriving at that point); the loop itself never looks at
`progress.status`, exactly as in the source. -/
def issues_step (op : Student → Except String OperationOutcome)
    (cb : Option (ProgressData → Except String Unit))
    (cancel_after now : Nat) (st : IssuesState) (s : Student) : IssuesState :=
  let outcome := process_entity op s
  let routed :=
    if outcome.status = Status.success then
      { st with successful := st.successful ++ [outcome] }
    else
      { st with failed := st.failed ++ [outcome] }
  let st' :=
    { routed with
      total_processed := st.total_processed + 1,
      progress :=
        (update_progress st.progress 1 cb
          (decide (outcome.status = Status.success))).1 }
  if st'.total_processed = cancel_after then
    let c := cancel_running_operation st'.progress now
    { st' with progress := c.1, cancel_result := some c.2 }
  else st'

/-- The batch loop of `bulk_create_student_issues` (lines 152-186), with
the same batching and inter-batch sleep shape as
`folders_batch_loop`.  Returns the final state and the sleep count. -/
def issues_batch_loop (op : Student → Except String OperationOutcome)
    (cb : Option (ProgressData → Except String Unit))
    (batch_size cancel_after now : Nat) :
    Nat → List Student → IssuesState → IssuesState × Nat
  | 0, _, st => (st, 0)
  | _ + 1, [], st => (st, 0)
  | fuel + 1, s :: rest', st =>
    let l := s :: rest'
    let stb := (l.take batch_size).foldl (issues_step op cb cancel_after now) st
    let rest := l.drop batch_size
    let r := issues_batch_loop op cb batch_size cancel_after now fuel rest stb
    (r.1, (if rest.isEmpty then 0 else 1) + r.2)

/-- Everything `bulk_create_student_issues` produces under the injected
cancellation. -/
structure IssuesRunReturn where
  successful : List OperationOutcome
  failed : List OperationOutcome
  total_processed : Nat
  summary : Summary
  sleeps : Nat
  progress : ProgressData
  cancel_result : Option Bool
  store : Store
  deriving Repr

/-- `BulkProcessor.bulk_create_student_issues` on an already-loaded
student list, instrumented with one concurrent
`cancel_running_operation` call arriving right after the
`cancel_after`-th entity's outcome is reported (`cancel_after = 0`:
no cancel call ever arrives).  After the loop the source generates the
summary, calls `_finalize_progress('completed')` — overwriting whatever
status the progress dictionary held — and saves the results. -/
def bulk_create_student_issues_with_cancel
    (op : Student → Except String OperationOutcome)
    (students : List Student) (batch_size : Nat)
    (cb : Option (ProgressData → Except String Unit))
    (cancel_after : Nat) (store : Store) (ts : String) (now t : Nat) :
    IssuesRunReturn :=
  let p0 := init_progress students.length "Creating student issues" now
  let st0 : IssuesState :=
    { successful := [], failed := [], total_processed := 0,
      progress := p0, cancel_result := none }
  let loop := issues_batch_loop op cb batch_size cancel_after now
    students.length students st0
  let st := loop.1
  let results : Results :=
    { successful := st.successful, failed := st.failed, part_success := [],
      operation := "bulk_create_student_issues", timestamp := ts }
  let summary := generate_summary results
  let p2 := finalize_progress st.progress RunStatus.completed now
  let store' := save_bulk_results store "bulk_create_student_issues" ts t
    { operation := "bulk_create_student_issues", timestamp := ts, summary := summary }
  { successful := st.successful, failed := st.failed,
    total_processed := st.total_processed, summary := summary,
    sleeps := loop.2, progress := p2, cancel_result := st.cancel_result,
    store := store' }

/-- The operation types `retry_failed_operations` dispatches on; any
other string yields a per-item `Unknown operation type` error result. -/
def known_retry_types : List String :=
  ["folder_creation", "invitation_sending", "issue_creation", "progress_update"]

/-- What `retry_failed_operations` returns and does: the
`successful`/`failed` lists of the `retry_results` dictionary, the
number of calls dispatched to a remote manager, the store after
`_save_bulk_results`, and the final progress state. -/
structure RetryRunReturn where
  successful : List OperationOutcome
  failed : List OperationOutcome
  total_retried : Nat
  summary : Summary
  remote_calls : Nat
  store : Store
  progress : ProgressData
  deriving Repr

/-- Fold step for one `failed_item` of `retry_failed_operations` (lines
627-675).  The accumulator is (successful, failed, remote-call count,
progress).  An item without student data is recorded as a failure
without touching the remote managers; a known operation type dispatches
to the corresponding manager (abstracted as `opFun`, one remote call),
whose exception is caught and recorded; an unknown type yields an
explicit error result. -/
def retry_step (operation_type : String)
    (opFun : Student → Except String OperationOutcome)
    (cb : Option (ProgressData → Except String Unit))
    (acc : List OperationOutcome × List OperationOutcome × Nat × ProgressData)
    (item : OperationOutcome) :
    List OperationOutcome × List OperationOutcome × Nat × ProgressData :=
  match item.student with
  | none =>
    (acc.1,
     acc.2.1 ++ [{ status := Status.error,
                   error := some "No student data in failed item" }],
     acc.2.2.1,
     (update_progress acc.2.2.2 1 cb false).1)
  | some s =>
    if operation_type ∈ known_retry_types then
      match opFun s with
      | Except.ok result =>
        if result.status = Status.success then
          (acc.1 ++ [result], acc.2.1, acc.2.2.1 + 1,
           (update_progress acc.2.2.2 1 cb true).1)
        else
          (acc.1, acc.2.1 ++ [result], acc.2.2.1 + 1,
           (update_progress acc.2.2.2 1 cb false).1)
      | Except.error e =>
        (acc.1, acc.2.1 ++ [{ status := Status.error, error := some e }],
         acc.2.2.1 + 1,
         (update_progress acc.2.2.2 1 cb false).1)
    else
      (acc.1,
       acc.2.1 ++ [{ status := Status.error,
                     error := some ("Unknown operation type: " ++ operation_type) }],
       acc.2.2.1,
       (update_progress acc.2.2.2 1 cb false).1)

/-- `BulkProcessor.retry_failed_operations`: initialize progress over the
failed list, process each failed item with catch-and-continue, generate
the summary, finalize as `completed` and unconditionally call
`_save_bulk_results(retry_results, f'retry_{operation_type}')`. -/
def retry_failed_operations (failed_results : List OperationOutcome)
    (operation_type : String)
    (opFun : Student → Except String OperationOutcome)
    (cb : Option (ProgressData → Except String Unit))
    (store : Store) (ts : String) (now t : Nat) : RetryRunReturn :=
  let p0 := init_progress failed_results.length ("Retrying " ++ operation_type) now
  let r := failed_results.foldl (retry_step operation_type opFun cb) ([], [], 0, p0)
  let results : Results :=
    { successful := r.1, failed := r.2.1, part_success := [],
      operation := "retry_" ++ operation_type, timestamp := ts }
  let summary := generate_summary results
  let p2 := finalize_progress r.2.2.2 RunStatus.completed now
  let store' := save_bulk_results store ("retry_" ++ operation_type) ts t
    { operation := "retry_" ++ operation_type, timestamp := ts, summary := summary }
  { successful := r.1, failed := r.2.1, total_retried := failed_results.length,
    summary := summary, remote_calls := r.2.2.1, store := store', progress := p2 }

/-- The warning messages `validate_bulk_operation_prerequisites` can
append, one constructor per `warnings.append` site (the constructor
arguments are the values interpolated into the message string). -/
inductive VWarning where
  | large_student_count (n : Nat)
  | low_rate_limit (remaining : Int)
  | rate_limit_check_failed
  | missing_field (position : Nat) (field : String)
  | no_github_username (index_number : String)
  | no_supervisors
  | supervisor_config_error (msg : String)
  | low_disk_space
  deriving Repr, DecidableEq

/-- The error messages `validate_bulk_operation_prerequisites` can
append, one constructor per `errors.append` site. -/
inductive VError where
  | no_students
  | cannot_read_csv (msg : String)
  | repo_missing
  | github_api_error (msg : String)
  | config_missing (path : String)
  | validation_error (msg : String)
  deriving Repr, DecidableEq

/-- The environment the validator probes: repository lookup result,
whether the GitHub access block raised, the rate-limit query
(`none`: `check_rate_limit` raised; `some none`: it returned `None`;
`some (some n)`: remaining is `n`), presence of the three required
configuration keys, the configured supervisor count and the free disk
space in whole gigabytes (`none`: `shutil.disk_usage` raised). -/
structure ValidationEnv where
  repo_exists : Bool
  github_access_error : Option String
  rate_limit_info : Option (Option Int)
  token_present : Bool
  org_present : Bool
  repo_name_present : Bool
  supervisors_count : Nat
  free_space_gb : Option Int
  deriving Repr, DecidableEq

/-- The dictionary `validate_bulk_operation_prerequisites` returns. -/
structure ValidationResult where
  valid : Bool
  errors : List VError
  warnings : List VWarning
  checks : List (String × String)
  deriving Repr, DecidableEq

/-- The `required_fields` list of the student-data check. -/
def required_fields : List String := ["index_number", "research_area", "email"]

/-- Field lookup used by the student-data check. -/
def student_field (s : Student) : String → String
  | "index_number" => s.index_number
  | "research_area" => s.research_area
  | "email" => s.email
  | _ => ""

/-- The `for i, student in enumerate(students)` warning loop (lines
547-560): a warning per missing/empty required field (positions are
1-based, as in the message `f"Student {i+1}: ..."`), plus, for
`bulk_send_invitations`, a warning per student without a GitHub
username. -/
def student_field_warnings (operation_type : String) :
    Nat → List Student → List VWarning
  | _, [] => []
  | i, s :: rest =>
    (required_fields.filterMap (fun f =>
        if student_field s f = "" then some (VWarning.missing_field (i + 1) f)
        else none)) ++
      (if operation_type = "bulk_send_invitations" ∧ s.github_username = "" then
        [VWarning.no_github_username s.index_number]
      else []) ++
      student_field_warnings operation_type (i + 1) rest

/-- `BulkProcessor.validate_bulk_operation_prerequisites` on the path
where `load_project_data` returns normally (the CSV-read exception
branch, which returns early, is the only path not covered).  Note that
an empty student list appends a hard error but does NOT return early:
all later checks, including the rate-limit check, still run. -/
def validate_bulk_operation_prerequisites (operation_type : String)
    (students : List Student) (env : ValidationEnv) : ValidationResult :=
  let empty := students.isEmpty
  let errs1 : List VError := if empty then [VError.no_students] else []
  let warns1 : List VWarning :=
    if ¬ empty ∧ 200 < students.length then
      [VWarning.large_student_count students.length]
    else []
  let checks1 : List (String × String) :=
    if empty then [] else [("project_data", "OK")]
  let valid1 := !empty
  let gh :=
    match env.github_access_error with
    | some e => ([VError.github_api_error e], [("github_api", "FAILED")], false)
    | none =>
      if operation_type = "bulk_create_student_folders" ∨
          operation_type = "bulk_create_student_issues" ∨
          operation_type = "bulk_send_invitations" then
        if ¬ env.repo_exists ∧ operation_type ≠ "bulk_create_repositories" then
          ([VError.repo_missing], [("repository_access", "FAILED")], false)
        else (([] : List VError), [("repository_access", "OK")], true)
      else ([], [], true)
  let rl :=
    match env.rate_limit_info with
    | none => ([VWarning.rate_limit_check_failed], [("rate_limit", "WARNING")])
    | some info =>
      let remaining := info.getD 0
      if remaining < 100 then
        ([VWarning.low_rate_limit remaining], [("rate_limit", "WARNING")])
      else (([] : List VWarning), [("rate_limit", "OK")])
  let warns4 := student_field_warnings operation_type 0 students
  let errs5 : List VError :=
    (if env.token_present then [] else [VError.config_missing "github.token"]) ++
      (if env.org_present then [] else [VError.config_missing "github.organization"]) ++
      (if env.repo_name_present then [] else [VError.config_missing "repository.name"])
  let valid5 := env.token_present && env.org_present && env.repo_name_present
  let sup :=
    if operation_type = "bulk_send_invitations" then
      if env.supervisors_count = 0 then
        ([VWarning.no_supervisors], [("supervisors", "WARNING")])
      else (([] : List VWarning), [("supervisors", "OK")])
    else ([], [])
  let disk :=
    match env.free_space_gb with
    | none => (([] : List VWarning), [("disk_space", "UNKNOWN")])
    | some g =>
      if g < 1 then ([VWarning.low_disk_space], [("disk_space", "WARNING")])
      else ([], [("disk_space", "OK")])
  { valid := valid1 && gh.2.2 && valid5,
    errors := errs1 ++ gh.1 ++ errs5,
    warnings := warns1 ++ rl.1 ++ warns4 ++ sup.1 ++ disk.1,
    checks := checks1 ++ gh.2.1 ++ rl.2 ++ sup.2 ++ disk.2 }

/-- Whether a warning is about remote quota (the two `warnings.append`
sites of the rate-limit check). -/
def is_quota_warning : VWarning → Bool
  | VWarning.low_rate_limit _ => true
  | VWarning.rate_limit_check_failed => true
  | _ => false

/-- One raw CSV row of the roster, with the column names of the source
(`Student_Name,Student_ID,Research_Area,GitHub_User_Name,Mail`). -/
structure CsvRow where
  Student_Name : String
  Student_ID : String
  Research_Area : String
  GitHub_User_Name : String
  Mail : String
  deriving Repr, DecidableEq

/-- The project dictionary `load_project_data` builds per row. -/
structure ProjectRecord where
  index_number : String
  Student_ID : String
  student_name : String
  Student_Name : String
  research_area : String
  email : String
  github_username : String
  GitHub_User_Name : String
  research_area_clean : String
  deriving Repr, DecidableEq

/-- Python's `str.strip()`: drop leading and trailing whitespace. -/
def py_strip (s : String) : String :=
  String.mk (((s.toList.dropWhile Char.isWhitespace).reverse.dropWhile
    Char.isWhitespace).reverse)

/-- Helper of `clean_folder_name`: `re.sub(r'-+', '-', s)` — collapse
every run of hyphens to a single hyphen.  The flag records whether the
previous character was a hyphen. -/
def collapse_hyphens : Bool → List Char → List Char
  | _, [] => []
  | prev, c :: rest =>
    if c = '-' then
      if prev then collapse_hyphens true rest
      else c :: collapse_hyphens true rest
    else c :: collapse_hyphens false rest

/-- Python's `str.strip('-')`: drop leading and trailing hyphens. -/
def strip_hyphens (l : List Char) : List Char :=
  ((l.dropWhile (· = '-')).reverse.dropWhile (· = '-')).reverse

/-- `utils.clean_folder_name`: replace spaces/underscores with hyphens,
collapse hyphen runs, strip outer hyphens, fall back to `'project'` when
empty, lowercase. -/
def clean_folder_name (name : String) : String :=
  let replaced := name.toList.map (fun ch => if ch = ' ' ∨ ch = '_' then '-' else ch)
  let stripped := strip_hyphens (collapse_hyphens false replaced)
  let res := if stripped.isEmpty then "project".toList else stripped
  String.mk (res.map Char.toLower)

/-- `utils.load_project_data` on already-parsed CSV rows.  The helper
`extract_github_username` (a regex-based URL parser, irrelevant to the
claims below, which hold for every such function) is passed in as
`extract_github`.  A row whose stripped `Student_ID` or `Research_Area`
is empty is skipped (`continue`); every kept row additionally gets the
cleaned research area. -/
def load_project_data (extract_github : String → String) :
    List CsvRow → List ProjectRecord
  | [] => []
  | row :: rest =>
    let p : ProjectRecord :=
      { index_number := py_strip row.Student_ID,
        Student_ID := py_strip row.Student_ID,
        student_name := py_strip row.Student_Name,
        Student_Name := py_strip row.Student_Name,
        research_area := py_strip row.Research_Area,
        email := py_strip row.Mail,
        github_username := extract_github (py_strip row.GitHub_User_Name),
        GitHub_User_Name := py_strip row.GitHub_User_Name,
        research_area_clean := "" }
    if p.index_number = "" ∨ p.research_area = "" then
      load_project_data extract_github rest
    else
      { p with research_area_clean := clean_folder_name p.research_area } ::
        load_project_data extract_github rest

/-- The number of batches, exactly as the source computes it:
`total_batches = (len(students) - 1) // self.batch_size + 1`. -/
def total_batches (n batch_size : Nat) : Nat := (n - 1) / batch_size + 1

/-- Invariant carried through the instrumented
`bulk_create_student_issues` loop: after `count` processed entities the
counters agree, and the cancel call has happened (returning `true`, with
the status flipped to `cancelled`) exactly when `count` has reached
`cancel_after`. -/
def issues_inv (cancel_after count : Nat) (st : IssuesState) : Prop :=
  st.total_processed = count ∧
  st.progress.processed_items = count ∧
  (if count < cancel_after then
    st.cancel_result = none ∧ st.progress.status = RunStatus.running
  else
    st.cancel_result = some true ∧ st.progress.status = RunStatus.cancelled)

/-- A well-formed demo student. -/
def demo_student : Student :=
  { index_number := "S1", research_area := "ML", email := "a@x.y",
    github_username := "alice" }

/-- A demo student with an empty `email` field. -/
def demo_student_no_email : Student :=
  { index_number := "S2", research_area := "CV", email := "",
    github_username := "bob" }

/-- An operation that always succeeds. -/
def op_ok : Student → Except String OperationOutcome :=
  fun s => Except.ok { status := Status.success, student := some s }

/-- An operation that always raises. -/
def op_throws : Student → Except String OperationOutcome :=
  fun _ => Except.error "boom"

/-- An empty `data/bulk_operations/` directory. -/
def store0 : Store := { entries := [] }

/-- A healthy validation environment with the given remaining quota. -/
def demo_env (remaining : Int) : ValidationEnv :=
  { repo_exists := true, github_access_error := none,
    rate_limit_info := some (some remaining), token_present := true,
    org_present := true, repo_name_present := true, supervisors_count := 1,
    free_space_gb := some 100 }

/-- A demo saved-run document. -/
def demo_run : SavedRun :=
  { operation := "create_folder", timestamp := "2025-01-01T00:00:00",
    summary :=
      { total_processed := 3, successful_count := 2, failed_count := 1,
        part_success_count := 0, success_rate := 200 / 3,
        operation := "create_folder", timestamp := "2025-01-01T00:00:00" } }

/-- A progress state mid-run, for exercising `update_progress`. -/
def demo_progress : ProgressData := init_progress 5 "Creating student folders" 0

/-- A progress callback that always raises. -/
def cb_boom : ProgressData → Except String Unit :=
  fun _ => Except.error "observer exploded"

/-- A roster row with all fields present. -/
def demo_row_good : CsvRow :=
  { Student_Name := "Alice", Student_ID := "S1", Research_Area := "ML",
    GitHub_User_Name := "alice", Mail := "a@x.y" }

/-- A roster row whose `Student_ID` is whitespace only: `load_project_data`
drops it. -/
def demo_row_bad : CsvRow :=
  { Student_Name := "Bob", Student_ID := "  ", Research_Area := "CV",
    GitHub_User_Name := "bob", Mail := "b@x.y" }

/-- The project record `load_project_data` builds from `demo_row_good`. -/
def demo_project_good : ProjectRecord :=
  { index_number := "S1", Student_ID := "S1", student_name := "Alice",
    Student_Name := "Alice", research_area := "ML", email := "a@x.y",
    github_username := "alice", GitHub_User_Name := "alice",
    research_area_clean := "ml" }

/-! ## Helper lemmas -/

theorem update_progress_fst (p : ProgressData) (i : Nat)
    (cb : Option (ProgressData → Except String Unit)) (b : Bool) :
    (update_progress p i cb b).1 = progress_after p i b := by
  unfold update_progress
  cases cb with
  | none => rfl
  | some f => cases h : f (progress_after p i b) <;> simp [h]

theorem progress_after_processed_items (p : ProgressData) (i : Nat) (b : Bool) :
    (progress_after p i b).processed_items = p.processed_items + i := by
  simp only [progress_after]
  split <;> split <;> rfl

theorem progress_after_status (p : ProgressData) (i : Nat) (b : Bool) :
    (progress_after p i b).status = p.status := by
  simp only [progress_after]
  split <;> split <;> rfl

theorem progress_after_counts_true (p : ProgressData) (i : Nat) :
    (progress_after p i true).successful_items = p.successful_items + i ∧
      (progress_after p i true).failed_items = p.failed_items := by
  simp only [progress_after]
  constructor <;> (split <;> split <;> simp_all)

theorem progress_after_counts_false (p : ProgressData) (i : Nat) :
    (progress_after p i false).failed_items = p.failed_items + i ∧
      (progress_after p i false).successful_items = p.successful_items := by
  simp only [progress_after]
  constructor <;> (split <;> split <;> simp_all)

theorem create_folder_batch_fst (op : Student → Except String OperationOutcome)
    (cb : Option (ProgressData → Except String Unit)) :
    ∀ (l : List Student) (p : ProgressData),
      (create_folder_batch op cb l p).1 = l.map (process_entity op)
  | [], _ => rfl
  | s :: rest, p => by
    simp only [create_folder_batch, List.map_cons, List.cons.injEq, true_and]
    exact create_folder_batch_fst op cb rest _

theorem folders_batch_loop_nil (op : Student → Except String OperationOutcome)
    (cb : Option (ProgressData → Except String Unit)) (batch_size fuel : Nat)
    (p : ProgressData) :
    folders_batch_loop op cb batch_size fuel [] p = ([], 0, p) := by
  cases fuel <;> rfl

theorem folders_batch_loop_fst (op : Student → Except String OperationOutcome)
    (cb : Option (ProgressData → Except String Unit)) (batch_size : Nat)
    (hbs : 0 < batch_size) :
    ∀ (fuel : Nat) (l : List Student) (p : ProgressData), l.length ≤ fuel →
      (folders_batch_loop op cb batch_size fuel l p).1 = l.map (process_entity op) := by
  intro fuel
  induction fuel with
  | zero =>
    intro l p hl
    rw [List.length_eq_zero.mp (Nat.le_zero.mp hl)]
    rfl
  | succ n ih =>
    intro l p hl
    match l with
    | [] => rfl
    | s :: rest' =>
      simp only [folders_batch_loop]
      rw [create_folder_batch_fst, ih _ _ (by
        simp only [List.length_drop, List.length_cons]
        simp only [List.length_cons] at hl
        omega)]
      rw [← List.map_append, List.take_append_drop]

theorem folders_batch_loop_sleeps (op : Student → Except String OperationOutcome)
    (cb : Option (ProgressData → Except String Unit)) (batch_size : Nat)
    (hbs : 0 < batch_size) :
    ∀ (fuel : Nat) (l : List Student) (p : ProgressData),
      l.length ≤ fuel → l ≠ [] →
      (folders_batch_loop op cb batch_size fuel l p).2.1 = (l.length - 1) / batch_size := by
  intro fuel
  induction fuel with
  | zero =>
    intro l p hl hne
    exact absurd (List.length_eq_zero.mp (Nat.le_zero.mp hl)) hne
  | succ n ih =>
    intro l p hl hne
    match l with
    | [] => exact absurd rfl hne
    | s :: rest' =>
      simp only [folders_batch_loop]
      by_cases hr : (s :: rest').drop batch_size = []
      · have hlen : rest'.length + 1 ≤ batch_size := by
          have := List.drop_eq_nil_iff.mp hr
          simpa using this
        rw [hr, folders_batch_loop_nil]
        simp [List.length_cons, Nat.div_eq_of_lt (show rest'.length < batch_size by omega)]
      · have hgt : batch_size < (s :: rest').length := by
          by_contra hc
          exact hr (List.drop_eq_nil_iff.mpr (by omega))
        have hlen' : ((s :: rest').drop batch_size).length ≤ n := by
          simp only [List.length_drop, List.length_cons]
          simp only [List.length_cons] at hl
          omega
        rw [ih _ _ hlen' hr]
        have hne2 : ((s :: rest').drop batch_size).isEmpty = false := by
          cases hdrop : (s :: rest').drop batch_size with
          | nil => exact absurd hdrop hr
          | cons a as => rfl
        rw [hne2]
        simp only [List.length_drop]
        rw [Nat.div_eq_sub_div hbs (show batch_size ≤ (s :: rest').length - 1 by
          simp only [List.length_cons] at hgt ⊢
          omega)]
        have heq : (s :: rest').length - batch_size - 1 =
            (s :: rest').length - 1 - batch_size := by omega
        rw [heq]
        simp [Nat.add_comm]

theorem route_results_len (l : List OperationOutcome) :
    (route_results l).1.length + (route_results l).2.1.length = l.length ∧
      (route_results l).2.2 = l.length := by
  induction l with
  | nil => exact ⟨rfl, rfl⟩
  | cons r rest ih =>
    simp only [route_results]
    split
    · simp only [List.length_cons]
      omega
    · simp only [List.length_cons]
      omega

theorem issues_batch_loop_nil (op : Student → Except String OperationOutcome)
    (cb : Option (ProgressData → Except String Unit))
    (batch_size cancel_after now fuel : Nat) (st : IssuesState) :
    issues_batch_loop op cb batch_size cancel_after now fuel [] st = (st, 0) := by
  cases fuel <;> rfl

theorem issues_batch_loop_fst (op : Student → Except String OperationOutcome)
    (cb : Option (ProgressData → Except String Unit))
    (batch_size cancel_after now : Nat) (hbs : 0 < batch_size) :
    ∀ (fuel : Nat) (l : List Student) (st : IssuesState), l.length ≤ fuel →
      (issues_batch_loop op cb batch_size cancel_after now fuel l st).1 =
        l.foldl (issues_step op cb cancel_after now) st := by
  intro fuel
  induction fuel with
  | zero =>
    intro l st hl
    rw [List.length_eq_zero.mp (Nat.le_zero.mp hl)]
    rfl
  | succ n ih =>
    intro l st hl
    match l with
    | [] => rfl
    | s :: rest' =>
      simp only [issues_batch_loop]
      rw [ih _ _ (by
        simp only [List.length_drop, List.length_cons]
        simp only [List.length_cons] at hl
        omega)]
      conv_rhs => rw [← List.take_append_drop batch_size (s :: rest')]
      rw [List.foldl_append]

theorem issues_step_inv (op : Student → Except String OperationOutcome)
    (cb : Option (ProgressData → Except String Unit))
    (cancel_after now : Nat)
    (st : IssuesState) (count : Nat) (s : Student)
    (h : issues_inv cancel_after count st) :
    issues_inv cancel_after (count + 1) (issues_step op cb cancel_after now st s) := by
  obtain ⟨h1, h2, h3⟩ := h
  have hupd_status : ((update_progress st.progress 1 cb
      (decide ((process_entity op s).status = Status.success))).1).status =
      st.progress.status := by
    rw [update_progress_fst, progress_after_status]
  have hupd_proc : ((update_progress st.progress 1 cb
      (decide ((process_entity op s).status = Status.success))).1).processed_items =
      st.progress.processed_items + 1 := by
    rw [update_progress_fst, progress_after_processed_items]
  simp only [issues_step, apply_ite IssuesState.cancel_result, ite_self]
  split
  case isTrue hyes =>
    have hlt : count < cancel_after := by omega
    rw [if_pos hlt] at h3
    have hrun : ((update_progress st.progress 1 cb
        (decide ((process_entity op s).status = Status.success))).1).status =
        RunStatus.running := by rw [hupd_status, h3.2]
    have hcanc : cancel_running_operation ((update_progress st.progress 1 cb
        (decide ((process_entity op s).status = Status.success))).1) now =
        ({ (update_progress st.progress 1 cb
            (decide ((process_entity op s).status = Status.success))).1 with
          status := RunStatus.cancelled, end_time := some now }, true) := by
      rw [cancel_running_operation, if_pos hrun]
    refine ⟨by simp [h1], ?_, ?_⟩
    · rw [hcanc]
      simp [hupd_proc, h2]
    · rw [if_neg (show ¬ count + 1 < cancel_after by omega), hcanc]
      exact ⟨by simp, by simp⟩
  case isFalse hno =>
    refine ⟨by simp [h1], by simp [hupd_proc, h2], ?_⟩
    by_cases hlt : count + 1 < cancel_after
    · rw [if_pos hlt]
      rw [if_pos (show count < cancel_after by omega)] at h3
      exact ⟨by simpa using h3.1, by simpa [hupd_status] using h3.2⟩
    · rw [if_neg hlt]
      rw [if_neg (show ¬ count < cancel_after by omega)] at h3
      exact ⟨by simpa using h3.1, by simpa [hupd_status] using h3.2⟩

theorem issues_foldl_inv (op : Student → Except String OperationOutcome)
    (cb : Option (ProgressData → Except String Unit))
    (cancel_after now : Nat) :
    ∀ (l : List Student) (st : IssuesState) (count : Nat),
      issues_inv cancel_after count st →
      issues_inv cancel_after (count + l.length)
        (l.foldl (issues_step op cb cancel_after now) st) := by
  intro l
  induction l with
  | nil => intro st count h; simpa using h
  | cons s rest ih =>
    intro st count h
    have hstep := issues_step_inv op cb cancel_after now st count s h
    have := ih _ (count + 1) hstep
    rw [List.foldl_cons]
    rw [List.length_cons]
    have heq : count + (rest.length + 1) = (count + 1) + rest.length := by omega
    rw [heq]
    exact this

theorem sort_desc_max : ∀ (l : List StoreEntry) (e : StoreEntry),
    (∀ y ∈ l, y.mtime < e.mtime) →
    ∃ tail, sort_desc (l ++ [e]) = e :: tail
  | [], e, _ => ⟨[], rfl⟩
  | x :: xs, e, h => by
    obtain ⟨tail, htail⟩ := sort_desc_max xs e (fun y hy => h y (List.mem_cons_of_mem _ hy))
    refine ⟨insert_desc x tail, ?_⟩
    have hx : x.mtime < e.mtime := h x (List.mem_cons_self _ _)
    simp only [List.cons_append, sort_desc, List.append_eq]
    rw [htail]
    simp only [insert_desc]
    rw [if_neg (by omega)]

theorem student_field_warnings_email (operation_type : String) :
    ∀ (students : List Student) (i k : Nat) (s : Student),
      students[k]? = some s → s.email = "" →
      VWarning.missing_field (i + k + 1) "email" ∈
        student_field_warnings operation_type i students := by
  intro students
  induction students with
  | nil => intro i k s hk; simp at hk
  | cons s0 rest ih =>
    intro i k s hk hmail
    match k with
    | 0 =>
      have hs : s0 = s := by simpa using hk
      subst hs
      simp only [student_field_warnings]
      refine List.mem_append_left _ (List.mem_append_left _ ?_)
      refine List.mem_filterMap.mpr ⟨"email", by simp [required_fields], ?_⟩
      simp [student_field, hmail]
    | k' + 1 =>
      have hk' : rest[k']? = some s := by simpa using hk
      have := ih (i + 1) k' s hk' hmail
      simp only [student_field_warnings]
      refine List.mem_append_right _ ?_
      have heq : i + (k' + 1) + 1 = (i + 1) + k' + 1 := by omega
      rw [heq]
      exact this

theorem load_project_data_fields (extract_github : String → String) :
    ∀ (rows : List CsvRow) (p : ProjectRecord),
      p ∈ load_project_data extract_github rows →
      p.index_number ≠ "" ∧ p.research_area ≠ "" := by
  intro rows
  induction rows with
  | nil => intro p hp; simp [load_project_data] at hp
  | cons row rest ih =>
    intro p hp
    simp only [load_project_data] at hp
    split at hp
    · exact ih p hp
    · rename_i hcond
      rcases List.mem_cons.mp hp with hph | hpm
      · subst hph
        push_neg at hcond
        exact ⟨hcond.1, hcond.2⟩
      · exact ih p hpm

theorem load_project_data_len (extract_github : String → String) :
    ∀ rows : List CsvRow,
      (load_project_data extract_github rows).length ≤ rows.length := by
  intro rows
  induction rows with
  | nil => simp [load_project_data]
  | cons row rest ih =>
    simp only [load_project_data]
    split
    · simp only [List.length_cons]
      omega
    · simp only [List.length_cons]
      omega

theorem load_project_data_drops (extract_github : String → String) :
    ∀ (rows : List CsvRow) (row : CsvRow), row ∈ rows →
      (py_strip row.Student_ID = "" ∨ py_strip row.Research_Area = "") →
      (load_project_data extract_github rows).length < rows.length := by
  intro rows
  induction rows with
  | nil => intro row hrow; simp at hrow
  | cons row0 rest ih =>
    intro row hrow hbad
    simp only [load_project_data]
    rcases List.mem_cons.mp hrow with hh | hm
    · subst hh
      rw [if_pos hbad]
      have := load_project_data_len extract_github rest
      simp only [List.length_cons]
      omega
    · split
      · have := ih row hm hbad
        simp only [List.length_cons]
        omega
      · have := ih row hm hbad
        simp only [List.length_cons]
        omega

/-! ## Claim theorems -/

/-- C1: for every student list and per-entity operation — including one
that always raises — `bulk_create_student_folders` records exactly one
outcome per student, so the outcome list has length N and the generated
summary satisfies `successful_count + failed_count + partial_success_count
= N`: no student dropped or double counted. -/
theorem c1_bulk_outcome_count (op : Student → Except String OperationOutcome)
    (students : List Student) (batch_size : Nat)
    (cb : Option (ProgressData → Except String Unit))
    (store : Store) (ts : String) (now t : Nat) (hbs : 0 < batch_size) :
    (bulk_create_student_folders op students batch_size cb store ts now t).all_results.length
        = students.length ∧
    (bulk_create_student_folders op students batch_size cb store ts now t).summary.successful_count +
        (bulk_create_student_folders op students batch_size cb store ts now t).summary.failed_count +
        (bulk_create_student_folders op students batch_size cb store ts now t).summary.part_success_count
      = students.length := by
  have hfst := folders_batch_loop_fst op cb batch_size hbs students.length students
    (init_progress students.length "Creating student folders" now) le_rfl
  have hlen : (folders_batch_loop op cb batch_size students.length students
      (init_progress students.length "Creating student folders" now)).1.length
      = students.length := by
    rw [hfst, List.length_map]
  have hroute := route_results_len (folders_batch_loop op cb batch_size students.length
    students (init_progress students.length "Creating student folders" now)).1
  constructor
  · simpa only [bulk_create_student_folders] using hlen
  · simp only [bulk_create_student_folders, generate_summary, List.length_nil]
    omega

/-- C1 witness: two students, batch size 1, an operation that always
raises. -/
theorem c1_witness :
    (bulk_create_student_folders op_throws [demo_student, demo_student_no_email] 1 none
        store0 "ts" 0 0).all_results.length = 2 ∧
    (bulk_create_student_folders op_throws [demo_student, demo_student_no_email] 1 none
        store0 "ts" 0 0).summary.successful_count +
      (bulk_create_student_folders op_throws [demo_student, demo_student_no_email] 1 none
        store0 "ts" 0 0).summary.failed_count +
      (bulk_create_student_folders op_throws [demo_student, demo_student_no_email] 1 none
        store0 "ts" 0 0).summary.part_success_count = 2 :=
  c1_bulk_outcome_count op_throws [demo_student, demo_student_no_email] 1 none store0
    "ts" 0 0 (by decide)

/-- C5: the inter-batch sleep runs exactly `k - 1` times for `k`
batches — `total_batches` is the very expression the source computes,
`(len(students) - 1) // batch_size + 1` — hence never after the final
batch and zero times when everything fits in one batch, including when
`len(students)` is an exact multiple of `batch_size`. -/
theorem c5_interbatch_sleeps (op : Student → Except String OperationOutcome)
    (students : List Student) (batch_size : Nat)
    (cb : Option (ProgressData → Except String Unit))
    (store : Store) (ts : String) (now t : Nat)
    (hbs : 0 < batch_size) (hne : students ≠ []) :
    (bulk_create_student_folders op students batch_size cb store ts now t).sleeps =
      total_batches students.length batch_size - 1 := by
  have hs := folders_batch_loop_sleeps op cb batch_size hbs students.length students
    (init_progress students.length "Creating student folders" now) le_rfl hne
  simp only [bulk_create_student_folders, total_batches]
  rw [hs]
  omega

/-- C5 witness: six students in batches of 3 (an exact multiple: two
batches, one sleep), and two students in one batch of 5 (zero sleeps). -/
theorem c5_witness :
    (bulk_create_student_folders op_ok
        [demo_student, demo_student, demo_student, demo_student, demo_student, demo_student]
        3 none store0 "ts" 0 0).sleeps = 1 ∧
    (bulk_create_student_folders op_ok [demo_student, demo_student_no_email] 5 none
        store0 "ts" 0 0).sleeps = 0 := by
  constructor
  · have h := c5_interbatch_sleeps op_ok
      [demo_student, demo_student, demo_student, demo_student, demo_student, demo_student]
      3 none store0 "ts" 0 0 (by decide) (by simp)
    simpa [total_batches] using h
  · have h := c5_interbatch_sleeps op_ok [demo_student, demo_student_no_email] 5 none
      store0 "ts" 0 0 (by decide) (by simp)
    simpa [total_batches] using h

/-- C3 counterexample: a transport error raised by the underlying HTTP
call is NOT returned as a failed-response value by `make_request` — it
propagates out of `make_request` as a raised exception (the source logs
it and re-raises). -/
theorem c3_counterexample :
    (make_request 5000 0 5000 (RequestResult.transport_error "connection refused")).2 =
      Except.error "connection refused" ∧
    ¬ ∃ v, (make_request 5000 0 5000
        (RequestResult.transport_error "connection refused")).2 = Except.ok v := by
  refine ⟨rfl, ?_⟩
  rintro ⟨v, hv⟩
  rw [show (make_request 5000 0 5000
      (RequestResult.transport_error "connection refused")).2 =
      Except.error "connection refused" from rfl] at hv
  exact Except.noConfusion hv

/-- C3 amended: a network/transport error raised by the underlying HTTP
call is logged and re-raised by `make_request` itself, but every client
operation wrapping it (`create_repository`, `get_repository`) catches the
exception and returns its failed-response sentinel (`False` / `None`), so
the error never propagates past those operation boundaries. -/
theorem c3_transport_error_boundary (remaining wait_time requeried : Int) (e : String) :
    (make_request remaining wait_time requeried (RequestResult.transport_error e)).2 =
      Except.error e ∧
    (create_repository remaining wait_time requeried (RequestResult.transport_error e)).2 =
      false ∧
    (get_repository remaining wait_time requeried (RequestResult.transport_error e)).2 =
      none :=
  ⟨rfl, rfl, rfl⟩

/-- C6: with remaining quota below the watermark 100 and the reset
instant in the future, `wait_for_rate_limit` sleeps `min(wait_time,
3600)` seconds — blocking until the recorded reset time, capped at one
hour — and then re-queries the quota (`check_rate_limit`); with remaining
quota at least 100 it returns without any wait. -/
theorem c6_wait_for_rate_limit (remaining wait_time requeried : Int) :
    (remaining < 100 → 0 < wait_time →
      wait_for_rate_limit remaining wait_time requeried =
        ([min wait_time 3600], requeried)) ∧
    (100 ≤ remaining →
      wait_for_rate_limit remaining wait_time requeried = ([], remaining)) := by
  constructor
  · intro h1 h2
    simp only [wait_for_rate_limit]
    rw [if_pos h1, if_pos h2]
  · intro h
    simp only [wait_for_rate_limit]
    rw [if_neg (by omega)]

/-- C6 witness: remaining 5 with a far-away reset sleeps the 3600-second
cap and adopts the re-queried quota; remaining 1000 does not wait. -/
theorem c6_witness :
    wait_for_rate_limit 5 5000 4000 = ([min 5000 3600], 4000) ∧
    wait_for_rate_limit 1000 7 9 = ([], 1000) :=
  ⟨(c6_wait_for_rate_limit 5 5000 4000).1 (by decide) (by decide),
   (c6_wait_for_rate_limit 1000 7 9).2 (by decide)⟩

/-- C4 counterexample: retrying an empty failed list does return empty
`successful`/`failed` lists, but it does NOT leave the persisted-run
store unchanged — `retry_failed_operations` unconditionally calls
`_save_bulk_results`, which writes two records even for an empty retry. -/
theorem c4_counterexample :
    ¬ ((retry_failed_operations [] "folder_creation" op_ok none store0 "ts" 0 0).successful
          = [] ∧
       (retry_failed_operations [] "folder_creation" op_ok none store0 "ts" 0 0).failed
          = [] ∧
       (retry_failed_operations [] "folder_creation" op_ok none store0 "ts" 0 0).store
          = store0) := by
  decide

/-- C4 amended: `retry_failed_operations` on an empty failed list returns
empty `successful` and `failed` lists and dispatches no call to any
remote manager, but it still persists the (empty) retry result: the
store afterwards is exactly the store with the timestamped
`retry_{operation_type}` record and the `latest_retry_{operation_type}`
record written. -/
theorem c4_empty_retry (operation_type : String)
    (opFun : Student → Except String OperationOutcome)
    (cb : Option (ProgressData → Except String Unit))
    (store : Store) (ts : String) (now t : Nat) :
    (retry_failed_operations [] operation_type opFun cb store ts now t).successful = [] ∧
    (retry_failed_operations [] operation_type opFun cb store ts now t).failed = [] ∧
    (retry_failed_operations [] operation_type opFun cb store ts now t).remote_calls = 0 ∧
    (retry_failed_operations [] operation_type opFun cb store ts now t).store =
      save_bulk_results store ("retry_" ++ operation_type) ts t
        { operation := "retry_" ++ operation_type, timestamp := ts,
          summary := generate_summary
            { successful := [], failed := [], part_success := [],
              operation := "retry_" ++ operation_type, timestamp := ts } } :=
  ⟨rfl, rfl, rfl, rfl⟩

/-- C9: `_update_progress` always returns normally; the registered
callback is invoked synchronously with the snapshot copy of the updated
summary; the counters are advanced exactly once regardless of what the
callback does; a callback exception is captured into the log instead of
propagating — so an observer cannot abort the run or corrupt the
counters. -/
theorem c9_update_progress_callback (p : ProgressData)
    (f : ProgressData → Except String Unit) (success : Bool) :
    (update_progress p 1 (some f) success).1 = progress_after p 1 success ∧
    (update_progress p 1 (some f) success).2.1 = some (progress_after p 1 success) ∧
    (progress_after p 1 success).processed_items = p.processed_items + 1 ∧
    (progress_after p 1 success).status = p.status ∧
    (success = true →
      (progress_after p 1 success).successful_items = p.successful_items + 1 ∧
      (progress_after p 1 success).failed_items = p.failed_items) ∧
    (success = false →
      (progress_after p 1 success).failed_items = p.failed_items + 1 ∧
      (progress_after p 1 success).successful_items = p.successful_items) ∧
    (update_progress p 1 (some f) success).1 =
      (update_progress p 1 (some (fun _ => Except.ok ())) success).1 ∧
    (∀ e, f (progress_after p 1 success) = Except.error e →
      (update_progress p 1 (some f) success).2.2 = some e) := by
  refine ⟨update_progress_fst p 1 (some f) success, ?_,
    progress_after_processed_items p 1 success, progress_after_status p 1 success,
    ?_, ?_, ?_, ?_⟩
  · unfold update_progress
    cases hf : f (progress_after p 1 success) <;> simp [hf]
  · intro hs; subst hs; exact progress_after_counts_true p 1
  · intro hs; subst hs; exact progress_after_counts_false p 1
  · rw [update_progress_fst, update_progress_fst]
  · intro e he
    simp [update_progress, he]

/-- C9 witness: a callback that always raises neither escapes
`_update_progress` (its message lands in the log slot) nor stops the
successful counter from advancing. -/
theorem c9_witness :
    (update_progress demo_progress 1 (some cb_boom) true).2.2 =
      some "observer exploded" ∧
    (update_progress demo_progress 1 (some cb_boom) true).1.successful_items =
      demo_progress.successful_items + 1 := by
  obtain ⟨h1, h2, h3, h4, h5, h6, h7, h8⟩ :=
    c9_update_progress_callback demo_progress cb_boom true
  exact ⟨h8 "observer exploded" rfl, by rw [h1]; exact (h5 rfl).1⟩

/-- C10: every record `load_project_data` returns has a non-empty
(stripped) `index_number` and `research_area`; a CSV row whose stripped
`Student_ID` or `Research_Area` is empty is silently dropped, so the
loaded roster can be strictly shorter than the CSV and no record lacking
the identifying key ever reaches a bulk operation. -/
theorem c10_load_project_data_invariant (extract_github : String → String)
    (rows : List CsvRow) :
    (∀ p ∈ load_project_data extract_github rows,
      p.index_number ≠ "" ∧ p.research_area ≠ "") ∧
    (load_project_data extract_github rows).length ≤ rows.length ∧
    (∀ row ∈ rows, (py_strip row.Student_ID = "" ∨ py_strip row.Research_Area = "") →
      (load_project_data extract_github rows).length < rows.length) :=
  ⟨fun p hp => load_project_data_fields extract_github rows p hp,
   load_project_data_len extract_github rows,
   fun row hrow hbad => load_project_data_drops extract_github rows row hrow hbad⟩

/-- C10 witness: of two rows, the one with a whitespace-only
`Student_ID` is dropped, and the surviving record has its key fields
non-empty. -/
theorem c10_witness :
    (load_project_data (fun s => s) [demo_row_good, demo_row_bad]).length ≤ 2 ∧
    (load_project_data (fun s => s) [demo_row_good, demo_row_bad]).length < 2 ∧
    (demo_project_good.index_number ≠ "" ∧ demo_project_good.research_area ≠ "") := by
  obtain ⟨h1, h2, h3⟩ := c10_load_project_data_invariant (fun s => s)
    [demo_row_good, demo_row_bad]
  exact ⟨h2, h3 demo_row_bad (by decide) (by decide), h1 demo_project_good (by decide)⟩

/-- C2 counterexample: a 10-entity run with batch size 3 and a
cancellation request arriving right after the 4th entity's outcome does
NOT stop at 4 entities with status `cancelled` — the batch loops never
read the cancel flag, all 10 entities are processed, and
`_finalize_progress('completed')` overwrites the `cancelled` status. -/
theorem c2_counterexample :
    (bulk_create_student_issues_with_cancel op_ok (List.replicate 10 demo_student) 3
        none 4 store0 "ts" 0 0).total_processed = 10 ∧
    (bulk_create_student_issues_with_cancel op_ok (List.replicate 10 demo_student) 3
        none 4 store0 "ts" 0 0).progress.status = RunStatus.completed ∧
    ¬ ((bulk_create_student_issues_with_cancel op_ok (List.replicate 10 demo_student) 3
          none 4 store0 "ts" 0 0).progress.status = RunStatus.cancelled ∧
       (bulk_create_student_issues_with_cancel op_ok (List.replicate 10 demo_student) 3
          none 4 store0 "ts" 0 0).total_processed = 4) := by
  refine ⟨by decide, by decide, ?_⟩
  intro h
  have h2 : (bulk_create_student_issues_with_cancel op_ok (List.replicate 10 demo_student)
      3 none 4 store0 "ts" 0 0).total_processed = 10 := by decide
  rw [h2] at h
  exact absurd h.2 (by decide)

/-- C2 amended: `cancel_running_operation` flips the status to
`cancelled` and returns `true` when invoked during a run (and returns
`false` on an idle tracker), but no batch loop ever polls the flag: a
run that gets cancelled after the `cancel_after`-th entity still
processes every entity (`processed == N`, one outcome each) and ends
with status `completed`, because `_finalize_progress('completed')`
overwrites `cancelled`. -/
theorem c2_cancel_flag_not_polled (op : Student → Except String OperationOutcome)
    (students : List Student) (batch_size : Nat)
    (cb : Option (ProgressData → Except String Unit))
    (cancel_after now : Nat) (store : Store) (ts : String) (t : Nat)
    (hbs : 0 < batch_size) (hca : 1 ≤ cancel_after)
    (hle : cancel_after ≤ students.length) :
    (bulk_create_student_issues_with_cancel op students batch_size cb cancel_after
        store ts now t).total_processed = students.length ∧
    (bulk_create_student_issues_with_cancel op students batch_size cb cancel_after
        store ts now t).progress.processed_items = students.length ∧
    (bulk_create_student_issues_with_cancel op students batch_size cb cancel_after
        store ts now t).progress.status = RunStatus.completed ∧
    (bulk_create_student_issues_with_cancel op students batch_size cb cancel_after
        store ts now t).cancel_result = some true ∧
    (∀ m, (cancel_running_operation initial_progress_data m).2 = false) := by
  have hinv0 : issues_inv cancel_after 0
      { successful := [], failed := [], total_processed := 0,
        progress := init_progress students.length "Creating student issues" now,
        cancel_result := none } := by
    refine ⟨rfl, rfl, ?_⟩
    rw [if_pos (by omega)]
    exact ⟨rfl, rfl⟩
  have hflat := issues_batch_loop_fst op cb batch_size cancel_after now hbs
    students.length students
    { successful := [], failed := [], total_processed := 0,
      progress := init_progress students.length "Creating student issues" now,
      cancel_result := none } le_rfl
  have hinvN := issues_foldl_inv op cb cancel_after now students
    { successful := [], failed := [], total_processed := 0,
      progress := init_progress students.length "Creating student issues" now,
      cancel_result := none } 0 hinv0
  rw [← hflat] at hinvN
  obtain ⟨hN1, hN2, hN3⟩ := hinvN
  rw [if_neg (by omega)] at hN3
  refine ⟨?_, ?_, ?_, ?_, ?_⟩
  · simp only [bulk_create_student_issues_with_cancel]
    rw [hN1]
    omega
  · simp only [bulk_create_student_issues_with_cancel, finalize_progress]
    rw [hN2]
    omega
  · simp only [bulk_create_student_issues_with_cancel, finalize_progress]
  · simp only [bulk_create_student_issues_with_cancel]
    exact hN3.1
  · intro m
    simp [cancel_running_operation, initial_progress_data]

/-- C2 witness: the amended behavior at the claim's own numbers —
N = 10, batch size 3, cancel after the 4th outcome. -/
theorem c2_witness :
    (bulk_create_student_issues_with_cancel op_ok (List.replicate 10 demo_student) 3
        none 4 store0 "ts" 0 0).total_processed = 10 ∧
    (bulk_create_student_issues_with_cancel op_ok (List.replicate 10 demo_student) 3
        none 4 store0 "ts" 0 0).cancel_result = some true ∧
    (cancel_running_operation initial_progress_data 123).2 = false := by
  have h := c2_cancel_flag_not_polled op_ok (List.replicate 10 demo_student) 3 none 4 0
    store0 "ts" 0 (by decide) (by decide) (by decide)
  exact ⟨h.1, h.2.2.2.1, h.2.2.2.2 123⟩

/-- C7 counterexample: an empty entity list does yield `valid = False`
with at least one error, but NOT necessarily zero quota warnings — the
empty-list error does not return early, so the rate-limit check still
runs and, with remaining quota 5, appends a quota warning. -/
theorem c7_counterexample :
    (validate_bulk_operation_prerequisites "bulk_create_student_folders" []
        (demo_env 5)).valid = false ∧
    (validate_bulk_operation_prerequisites "bulk_create_student_folders" []
        (demo_env 5)).errors ≠ [] ∧
    ¬ ((validate_bulk_operation_prerequisites "bulk_create_student_folders" []
        (demo_env 5)).warnings.filter is_quota_warning = []) := by
  decide

/-- C7 amended: (1) an empty entity list always yields `valid = False`
with the `No students found` error; (2) quota warnings are independent
of the entity list — whenever the rate-limit query reports fewer than
100 remaining, the low-quota warning appears, empty list or not; (3) on
a healthy environment a non-empty list validates (`valid = True`) even
when entities have missing required fields, because (4) a missing or
empty required field (such as `email`) only appends a per-entity
warning. -/
theorem c7_validation_gating :
    (∀ (operation_type : String) (env : ValidationEnv),
      (validate_bulk_operation_prerequisites operation_type [] env).valid = false ∧
      VError.no_students ∈
        (validate_bulk_operation_prerequisites operation_type [] env).errors) ∧
    (∀ (operation_type : String) (students : List Student) (env : ValidationEnv)
        (n : Int), env.rate_limit_info = some (some n) → n < 100 →
      VWarning.low_rate_limit n ∈
        (validate_bulk_operation_prerequisites operation_type students env).warnings) ∧
    (∀ (operation_type : String) (students : List Student) (env : ValidationEnv),
      students ≠ [] → env.github_access_error = none → env.repo_exists = true →
      env.token_present = true → env.org_present = true →
      env.repo_name_present = true →
      (validate_bulk_operation_prerequisites operation_type students env).valid = true) ∧
    (∀ (operation_type : String) (students : List Student) (env : ValidationEnv)
        (k : Nat) (s : Student), students[k]? = some s → s.email = "" →
      VWarning.missing_field (k + 1) "email" ∈
        (validate_bulk_operation_prerequisites operation_type students env).warnings) := by
  refine ⟨?_, ?_, ?_, ?_⟩
  · intro operation_type env
    constructor
    · simp [validate_bulk_operation_prerequisites]
    · simp [validate_bulk_operation_prerequisites]
  · intro operation_type students env n henv hn
    simp [validate_bulk_operation_prerequisites, henv, hn]
  · intro operation_type students env hne hga hre hto hor hrn
    cases students with
    | nil => exact absurd rfl hne
    | cons a as =>
      simp only [validate_bulk_operation_prerequisites, hga, hto, hor, hrn, hre,
        List.isEmpty_cons, Bool.not_false, Bool.true_and, Bool.and_true]
      split
      · rw [if_neg (by simp [hre])]
      · rfl
  · intro operation_type students env k s hk hmail
    simp only [validate_bulk_operation_prerequisites]
    refine List.mem_append_left _ (List.mem_append_left _ (List.mem_append_right _ ?_))
    have h := student_field_warnings_email operation_type students 0 k s hk hmail
    simpa using h

/-- C7 witness: each amended part at concrete inputs — empty list with
low quota, a student list probed under a healthy environment, and a
student with an empty `email`. -/
theorem c7_witness :
    ((validate_bulk_operation_prerequisites "x" [] (demo_env 5)).valid = false ∧
      VError.no_students ∈
        (validate_bulk_operation_prerequisites "x" [] (demo_env 5)).errors) ∧
    VWarning.low_rate_limit 5 ∈
      (validate_bulk_operation_prerequisites "x" [demo_student] (demo_env 5)).warnings ∧
    (validate_bulk_operation_prerequisites "bulk_create_student_folders"
        [demo_student_no_email] (demo_env 5000)).valid = true ∧
    VWarning.missing_field 1 "email" ∈
      (validate_bulk_operation_prerequisites "bulk_create_student_folders"
        [demo_student_no_email] (demo_env 5000)).warnings := by
  obtain ⟨h1, h2, h3, h4⟩ := c7_validation_gating
  exact ⟨h1 "x" (demo_env 5),
    h2 "x" [demo_student] (demo_env 5) 5 rfl (by decide),
    h3 "bulk_create_student_folders" [demo_student_no_email] (demo_env 5000)
      (by decide) rfl rfl rfl rfl rfl,
    h4 "bulk_create_student_folders" [demo_student_no_email] (demo_env 5000) 0
      demo_student_no_email rfl rfl⟩

/-- C8: after `_save_bulk_results` writes a run's results (at a write
instant later than every existing file), `get_bulk_operation_history`
for that operation name with limit 1 returns as its most recent record
one whose summary fields `total_processed`, `successful_count` and
`failed_count` equal those of the persisted summary exactly. -/
theorem c8_persist_then_history (store : Store) (operation_name ts : String)
    (run : SavedRun) (t : Nat)
    (hm : ∀ e ∈ store.entries, e.mtime < t) :
    ∃ rec rest,
      get_bulk_operation_history (save_bulk_results store operation_name ts t run)
        (some operation_name) 1 = rec :: rest ∧
      rec.summary.total_processed = run.summary.total_processed ∧
      rec.summary.successful_count = run.summary.successful_count ∧
      rec.summary.failed_count = run.summary.failed_count := by
  have hpat : matches_pattern (some operation_name)
      ("latest_" ++ operation_name ++ ".json") = true := by
    simp only [matches_pattern, Bool.and_eq_true, decide_eq_true_eq]
    refine ⟨?_, ?_⟩
    · show (".json").data <:+ ("latest_" ++ operation_name ++ ".json").data
      rw [String.data_append]
      exact List.suffix_append _ _
    · show operation_name.data <:+: ("latest_" ++ operation_name ++ ".json").data
      rw [String.data_append, String.data_append]
      exact ⟨("latest_").data, (".json").data, rfl⟩
  have hfiles : (save_bulk_results store operation_name ts t run).entries.filter
      (fun (e : StoreEntry) => matches_pattern (some operation_name) e.name) =
      (((store.entries.filter
          (fun (e : StoreEntry) =>
            decide (e.name ≠ operation_name ++ "_" ++ ts ++ ".json")) ++
        ([{ name := operation_name ++ "_" ++ ts ++ ".json", mtime := t, data := run }]
          : List StoreEntry)).filter
          (fun (e : StoreEntry) =>
            decide (e.name ≠ "latest_" ++ operation_name ++ ".json"))).filter
        (fun (e : StoreEntry) => matches_pattern (some operation_name) e.name)) ++
      ([{ name := "latest_" ++ operation_name ++ ".json", mtime := t + 1, data := run }]
        : List StoreEntry) := by
    simp only [save_bulk_results, save_progress_data, List.filter_append]
    simp [hpat]
  have hbound : ∀ y ∈ ((store.entries.filter
        (fun (e : StoreEntry) =>
          decide (e.name ≠ operation_name ++ "_" ++ ts ++ ".json")) ++
      ([{ name := operation_name ++ "_" ++ ts ++ ".json", mtime := t, data := run }]
        : List StoreEntry)).filter
        (fun (e : StoreEntry) =>
          decide (e.name ≠ "latest_" ++ operation_name ++ ".json"))).filter
      (fun (e : StoreEntry) => matches_pattern (some operation_name) e.name),
      y.mtime < t + 1 := by
    intro y hy
    have hy1 : y ∈ store.entries.filter
        (fun (e : StoreEntry) =>
          decide (e.name ≠ operation_name ++ "_" ++ ts ++ ".json")) ++
        ([{ name := operation_name ++ "_" ++ ts ++ ".json", mtime := t, data := run }]
          : List StoreEntry) :=
      List.mem_of_mem_filter (List.mem_of_mem_filter hy)
    rcases List.mem_append.mp hy1 with hold | hnew
    · exact Nat.lt_succ_of_lt (hm y (List.mem_of_mem_filter hold))
    · have hyeq : y = ({ name := operation_name ++ "_" ++ ts ++ ".json", mtime := t, data := run } : StoreEntry) := by
        simpa using hnew
      rw [hyeq]
      exact Nat.lt_succ_self t
  obtain ⟨tail, htail⟩ := sort_desc_max _
    ({ name := "latest_" ++ operation_name ++ ".json", mtime := t + 1, data := run }
      : StoreEntry) hbound
  refine ⟨{ file_name := "latest_" ++ operation_name ++ ".json",
            operation := run.operation, timestamp := run.timestamp,
            summary := run.summary, total_processed := run.summary.total_processed,
            success_rate := run.summary.success_rate }, [], ?_, rfl, rfl, rfl⟩
  simp only [get_bulk_operation_history]
  rw [hfiles, htail]
  rfl

/-- C8 witness: persisting onto a store holding one older record and
reading the history back with limit 1. -/
theorem c8_witness :
    ∃ rec rest,
      get_bulk_operation_history
        (save_bulk_results
          { entries := [{ name := "old.json", mtime := 2, data := demo_run }] }
          "create_folder" "20250101_000000" 5 demo_run)
        (some "create_folder") 1 = rec :: rest ∧
      rec.summary.total_processed = demo_run.summary.total_processed ∧
      rec.summary.successful_count = demo_run.summary.successful_count ∧
      rec.summary.failed_count = demo_run.summary.failed_count :=
  c8_persist_then_history
    { entries := [{ name := "old.json", mtime := 2, data := demo_run }] }
    "create_folder" "20250101_000000" demo_run 5
    (by intro e he; simp at he; rw [he]; decide)

end ProjMgmt
